import Mathlib

/-!
Shallow embedding of the token lifecycle and SignalR negotiation layer of the
Outlook add-in repository (src/src/taskpane/services and hooks).  Each service
function used by the specification claims is translated into an executable Lean
definition; asynchronous, single-threaded JavaScript execution is modelled by
the atomic synchronous segments of each async function (the code between two
await points), with promises represented by numbered futures and an outcome
oracle.  Times are integer milliseconds.
-/

/-! ## Character-list substring machinery

`String.prototype.includes` is modelled by an executable substring test over
the character list of the string, and `toLowerCase` by mapping
`Char.toLower`. -/

/-- Does the pattern occur as a leading segment of the list? -/
def leadsList : List Char → List Char → Bool
  | [], _ => true
  | _ :: _, [] => false
  | p :: ps, c :: cs => p == c && leadsList ps cs

/-- Does the pattern occur as a contiguous run anywhere in the list? -/
def occursIn (pat : List Char) : List Char → Bool
  | [] => pat.isEmpty
  | c :: cs => leadsList pat (c :: cs) || occursIn pat cs

theorem leadsList_append (p a b : List Char) (h : leadsList p a = true) :
    leadsList p (a ++ b) = true := by
  induction p generalizing a with
  | nil => simp [leadsList]
  | cons x xs ih =>
    cases a with
    | nil => simp [leadsList] at h
    | cons c cs =>
      simp only [leadsList, Bool.and_eq_true] at h
      simpa [leadsList, h.1] using ih cs h.2

theorem occursIn_append_left (p a b : List Char) (h : occursIn p a = true) :
    occursIn p (a ++ b) = true := by
  induction a with
  | nil =>
    simp only [occursIn, List.isEmpty_iff] at h
    subst h
    cases b with
    | nil => simp [occursIn]
    | cons c cs => simp [occursIn, leadsList]
  | cons c cs ih =>
    simp only [occursIn, Bool.or_eq_true] at h
    rcases h with h | h
    · have : leadsList p (c :: (cs ++ b)) = true := by
        simpa using leadsList_append p (c :: cs) b h
      simp [occursIn, this]
    · simp [occursIn, ih h]

/-- Substring test between strings, as used for `message.includes(...)`. -/
def strIncludes (s pat : String) : Bool :=
  occursIn pat.data s.data

/-- Lower-cased character list of a string, modelling `toLowerCase()`. -/
def lowerData (s : String) : List Char :=
  s.data.map Char.toLower

theorem string_data_append (s t : String) : (s ++ t).data = s.data ++ t.data := rfl

/-! ## negotiateService.ts -/

namespace NegotiateService

/-- Embedding of `NegotiateConfig` from signalr.types: negotiate URL plus optional retry
parameters (`undefined` modelled by `none`, resolved with `??`). -/
structure NegotiateConfig where
  negotiateUrl : String
  maxRetries : Option Nat
  retryDelayMs : Option Nat

/-- Embedding of `SignalRConnectionInfo`: the validated negotiate result. -/
structure SignalRConnectionInfo where
  url : String
  accessToken : String
deriving DecidableEq

/-- Parsed JSON body of a negotiate response; `none` fields model missing or
non-string values. -/
structure NegotiateData where
  url : Option String
  accessToken : Option String

/-- Outcome of one `fetch` of the negotiate endpoint, scripted by the test
oracle: successful parse, body-parse throw, non-ok HTTP status with its error
text, or a rejected fetch. -/
inductive AttemptOutcome where
  | success (data : NegotiateData)
  | jsonError (msg : String)
  | httpFail (status : Nat) (errorText : String)
  | netFail (msg : String)

/-- Embedding of `isAuthError`: substring sniffing on the lower-cased error message. -/
def isAuthError (msg : String) : Bool :=
  let m := lowerData msg
  occursIn "401".data m || occursIn "403".data m ||
    occursIn "authentication failed".data m || occursIn "unauthorized".data m

/-- Embedding of `isValidNegotiateResponse`: both `url` and `accessToken` must be non-empty
strings. -/
def isValidNegotiateResponse (data : NegotiateData) : Bool :=
  match data.url, data.accessToken with
  | some u, some t => decide (u ≠ "") && decide (t ≠ "")
  | _, _ => false

/-- Message of the non-retryable 401/403 error thrown inside the loop. -/
def authFailMsg (status : Nat) (errorText : String) : String :=
  "Authentication failed during SignalR negotiation (" ++ toString status ++
    "): " ++ errorText

/-- Message of the generic non-ok HTTP error thrown inside the loop. -/
def httpFailMsg (status : Nat) (errorText : String) : String :=
  "Negotiate request failed: " ++ toString status ++ " - " ++ errorText

/-- Message of the aggregate error after exhausting all retries. -/
def aggregateMsg (maxRetries : Nat) (lastError : Option String) : String :=
  "SignalR negotiation failed after " ++ toString maxRetries ++ " attempts: " ++
    lastError.getD "Unknown error"

/-- Body of one loop iteration of `negotiate` (the `try` block): either a
validated connection info or the message of the error it throws. -/
def evalAttempt : AttemptOutcome → Except String SignalRConnectionInfo
  | .success data =>
    if isValidNegotiateResponse data then
      .ok ⟨data.url.getD "", data.accessToken.getD ""⟩
    else
      .error "Invalid negotiate response: missing or empty url or accessToken"
  | .jsonError msg => .error msg
  | .httpFail status errorText =>
    if status = 401 ∨ status = 403 then .error (authFailMsg status errorText)
    else .error (httpFailMsg status errorText)
  | .netFail msg => .error msg

/-- Result of a whole `negotiate` run: its value or error, the number of HTTP
requests issued, and the backoff delays slept between attempts. -/
structure NegotiateRun where
  result : Except String SignalRConnectionInfo
  calls : Nat
  delays : List Nat

/-- The retry loop of `negotiate`.  `fuel` is the number of attempts still
allowed (`maxRetries - attempt + 1`); the code breaks to the aggregate error
when the failing attempt is the last one. -/
def negotiateLoop (responses : Nat → AttemptOutcome) (retryDelayMs maxRetries : Nat) :
    Nat → Nat → Option String → NegotiateRun
  | _, 0, lastError => ⟨.error (aggregateMsg maxRetries lastError), 0, []⟩
  | attempt, fuel + 1, _ =>
    match evalAttempt (responses attempt) with
    | .ok info => ⟨.ok info, 1, []⟩
    | .error msg =>
      if isAuthError msg then ⟨.error msg, 1, []⟩
      else if fuel = 0 then ⟨.error (aggregateMsg maxRetries (some msg)), 1, []⟩
      else
        let d := retryDelayMs * 2 ^ (attempt - 1)
        let r := negotiateLoop responses retryDelayMs maxRetries (attempt + 1) fuel (some msg)
        ⟨r.result, r.calls + 1, d :: r.delays⟩

/-- Embedding of `negotiate(config, bearerToken)` over a scripted sequence of fetch
outcomes (`responses n` is what the n-th attempt observes, 1-based). -/
def negotiate (responses : Nat → AttemptOutcome) (config : NegotiateConfig)
    (bearerToken : String) : NegotiateRun :=
  let maxRetries := config.maxRetries.getD 3
  let retryDelayMs := config.retryDelayMs.getD 1000
  if config.negotiateUrl = "" then ⟨.error "Negotiate URL is required", 0, []⟩
  else if bearerToken = "" then ⟨.error "Bearer token is required for negotiate", 0, []⟩
  else negotiateLoop responses retryDelayMs maxRetries 1 maxRetries none

end NegotiateService

/-! ## ssoService.ts (module-level state and pure helpers) -/

namespace SsoService

/-- Embedding of `JWTPayload` claims used by `parseJWTToken`; absent claims are `none`. -/
structure JWTPayload where
  exp : Option Int
  scp : Option String
  sub : Option String
  aud : Option String
  iss : Option String

/-- Embedding of `SSOToken`: parsed token record stored in the SSO state. -/
structure SSOToken where
  token : String
  expiresAt : Int
  scopes : List String
  userId : String
  audience : Option String
  issuer : Option String

/-- The part of the module-level `ssoState` relevant to token validity. -/
structure SSOState where
  isAuthenticated : Bool
  token : Option SSOToken

/-- Splitting a character list at every occurrence of a separator character,
the semantics of `String.prototype.split` with a one-character separator. -/
def splitChar (sep : Char) : List Char → List (List Char)
  | [] => [[]]
  | c :: rest =>
    let r := splitChar sep rest
    if c == sep then [] :: r
    else
      match r with
      | h :: t => (c :: h) :: t
      | [] => [[c]]

/-- Embedding of `token.split('.')`. -/
def jwtParts (token : String) : List String :=
  (splitChar (Char.ofNat 0x2e) token.data).map String.mk

/-- The `try` body of `parseJWTToken`: `none` models a thrown error (wrong
segment count, `atob`/`JSON.parse` failure modelled by the `decode` oracle,
or a missing/zero — hence falsy — `exp` claim). -/
def parseJWTAttempt (decode : String → Option JWTPayload) (token : String) :
    Option SSOToken :=
  match jwtParts token with
  | [_, p, _] =>
    match decode p with
    | none => none
    | some payload =>
      match payload.exp with
      | none => none
      | some e =>
        if e = 0 then none
        else
          some { token := token
                 expiresAt := e * 1000
                 scopes := (payload.scp.map (fun s => s.splitOn " ")).getD []
                 userId := payload.sub.getD ""
                 audience := payload.aud
                 issuer := payload.iss }
  | _ => none

/-- Embedding of `parseJWTToken`: on any decoding failure the catch block returns the token
with a fixed one-hour validity window instead of propagating the error. -/
def parseJWTToken (decode : String → Option JWTPayload) (now : Int)
    (token : String) : SSOToken :=
  match parseJWTAttempt decode token with
  | some t => t
  | none =>
    { token := token
      expiresAt := now + 60 * 60 * 1000
      scopes := []
      userId := "unknown"
      audience := none
      issuer := none }

/-- Embedding of `isSSOAuthenticated()`. -/
def isSSOAuthenticated (s : SSOState) : Bool :=
  s.isAuthenticated && s.token.isSome

/-- Embedding of `getCurrentToken()`: `ssoState.token?.token || null`. -/
def getCurrentToken (s : SSOState) : Option String :=
  match s.token with
  | some t => if t.token = "" then none else some t.token
  | none => none

/-- Embedding of `isTokenValid()`: token present and not within five minutes of expiry. -/
def isTokenValid (s : SSOState) (now : Int) : Bool :=
  match s.token with
  | none => false
  | some t => decide (t.expiresAt > now + 5 * 60 * 1000)

/-- Embedding of `getTimeUntilExpiry()`. -/
def getTimeUntilExpiry (s : SSOState) (now : Int) : Option Int :=
  match s.token with
  | none => none
  | some t => some (max 0 (t.expiresAt - now))

end SsoService

/-! ## tokenManagerService.ts (SSO TokenManager)

The synchronous prefix of `getToken` — everything up to the first `await` —
runs atomically on the JavaScript event loop.  An in-flight refresh promise is
a numbered future; `started` records, in order, the futures whose acquisition
was actually begun. -/

namespace TokenManagerService

open SsoService

/-- Mutable fields of the singleton `TokenManager` touched by the synchronous
prefix of `getToken`. -/
structure MgrState where
  refreshSlot : Option Nat
  nextFuture : Nat
  started : List Nat
deriving DecidableEq

/-- What one caller of `getToken` observes at its first suspension point:
an immediate cached value, an immediate thrown error, or the future it
awaits. -/
inductive EnterResult where
  | cached (token : String)
  | err (msg : String)
  | awaits (future : Nat)
deriving DecidableEq

/-- Embedding of `REFRESH_THRESHOLD_MS`. -/
def REFRESH_THRESHOLD_MS : Int := 5 * 60 * 1000

/-- Embedding of `isTokenStillValid()`: SSO-level validity plus the five-minute buffer on
the remaining lifetime. -/
def isTokenStillValid (sso : SSOState) (now : Int) : Bool :=
  if !isTokenValid sso now then false
  else
    match getTimeUntilExpiry sso now with
    | none => false
    | some ttl => decide (ttl > REFRESH_THRESHOLD_MS)

/-- Synchronous prefix of `TokenManager.getToken`: auth guard, cache fast
path, then the shared-promise gate (reusing an in-flight future or starting a
new one). -/
def enterGetToken (sso : SSOState) (now : Int) (s : MgrState) :
    MgrState × EnterResult :=
  if !isSSOAuthenticated sso then
    (s, .err "User is not authenticated. Please initialize SSO first.")
  else
    match (if isTokenStillValid sso now then getCurrentToken sso else none) with
    | some t => (s, .cached t)
    | none =>
      match s.refreshSlot with
      | some f => (s, .awaits f)
      | none =>
        ({ refreshSlot := some s.nextFuture
           nextFuture := s.nextFuture + 1
           started := s.started ++ [s.nextFuture] }, .awaits s.nextFuture)

/-- Embedding of `forceRefresh`: clear the in-flight promise (the cached token is not
touched), then run `getToken`. -/
def forceRefreshEnter (sso : SSOState) (now : Int) (s : MgrState) :
    MgrState × EnterResult :=
  enterGetToken sso now { s with refreshSlot := none }

/-- N sequential callers entering `getToken` before any future resolves. -/
def runEnters (sso : SSOState) (now : Int) : Nat → MgrState → MgrState × List EnterResult
  | 0, s => (s, [])
  | n + 1, s =>
    let (s', r) := enterGetToken sso now s
    let (s'', rs) := runEnters sso now n s'
    (s'', r :: rs)

/-- Value a caller ultimately observes, given the settlement of every future:
cached values and synchronous throws are immediate; an awaited future yields
that future's single shared outcome (the JavaScript promise primitive
delivers one settled result to every awaiter). -/
def callerResult (outcome : Nat → Except String String) : EnterResult → Except String String
  | .cached t => .ok t
  | .err m => .error m
  | .awaits f => outcome f

end TokenManagerService

/-! ## azureTokenService.ts (client-credentials AzureTokenManager) -/

namespace AzureTokenService

/-- Embedding of `AzureAdConfig`. -/
structure AzureAdConfig where
  tenantId : String
  clientId : String
  clientSecret : String
  scope : String
deriving DecidableEq

/-- Embedding of `CachedAzureToken`. -/
structure CachedAzureToken where
  token : String
  expiresAt : Int
  acquiredAt : Int
deriving DecidableEq

/-- Mutable fields of the singleton `AzureTokenManager` touched by the
synchronous prefix of `getToken`. -/
structure AzMgrState where
  cachedToken : Option CachedAzureToken
  refreshSlot : Option Nat
  nextFuture : Nat
  started : List Nat
  currentConfig : Option AzureAdConfig
deriving DecidableEq

/-- Embedding of `REFRESH_THRESHOLD_MS`. -/
def REFRESH_THRESHOLD_MS : Int := 5 * 60 * 1000

/-- Embedding of `validateConfig`: the error message thrown for the first empty (falsy)
field, `none` when the configuration passes (the `/.default` scope check only
warns). -/
def validateConfigErr (c : AzureAdConfig) : Option String :=
  if c.tenantId = "" then some "Azure AD Tenant ID is required"
  else if c.clientId = "" then some "Azure AD Client ID is required"
  else if c.clientSecret = "" then some "Azure AD Client Secret is required"
  else if c.scope = "" then some "Azure AD Scope is required"
  else none

/-- Embedding of `isTokenValid()`: cached token present and not within the refresh
threshold of expiry. -/
def isTokenValid (s : AzMgrState) (now : Int) : Bool :=
  match s.cachedToken with
  | none => false
  | some t => decide (t.expiresAt > now + REFRESH_THRESHOLD_MS)

/-- Synchronous prefix of `AzureTokenManager.getToken`: config validation,
`currentConfig` update, cache fast path, then the shared-promise gate. -/
def enterGetToken (c : AzureAdConfig) (now : Int) (s : AzMgrState) :
    AzMgrState × TokenManagerService.EnterResult :=
  match validateConfigErr c with
  | some e => (s, .err e)
  | none =>
    let s := { s with currentConfig := some c }
    match s.cachedToken with
    | some t =>
      if isTokenValid s now then (s, .cached t.token)
      else
        match s.refreshSlot with
        | some f => (s, .awaits f)
        | none =>
          ({ s with refreshSlot := some s.nextFuture
                    nextFuture := s.nextFuture + 1
                    started := s.started ++ [s.nextFuture] }, .awaits s.nextFuture)
    | none =>
      match s.refreshSlot with
      | some f => (s, .awaits f)
      | none =>
        ({ s with refreshSlot := some s.nextFuture
                  nextFuture := s.nextFuture + 1
                  started := s.started ++ [s.nextFuture] }, .awaits s.nextFuture)

/-- Embedding of `forceRefresh`: clear both the cached token and the in-flight promise,
then run `getToken`. -/
def forceRefreshEnter (c : AzureAdConfig) (now : Int) (s : AzMgrState) :
    AzMgrState × TokenManagerService.EnterResult :=
  enterGetToken c now { s with cachedToken := none, refreshSlot := none }

/-- N sequential callers entering `getToken` before any future resolves. -/
def runEnters (c : AzureAdConfig) (now : Int) : Nat → AzMgrState → AzMgrState × List TokenManagerService.EnterResult
  | 0, s => (s, [])
  | n + 1, s =>
    let (s', r) := enterGetToken c now s
    let (s'', rs) := runEnters c now n s'
    (s'', r :: rs)

end AzureTokenService

/-! ## signalrService.ts -/

namespace SignalrService

/-- Embedding of `SignalRConfig`: the fields consulted by `validateSignalRConfig` and
`initializeSignalR`.  Token providers are modelled by presence flags plus a
scripted outcome; `handlers` keeps only the method names, which is all the
registration order depends on. -/
structure SignalRConfig where
  hubUrl : String
  negotiateUrl : Option String
  accessToken : Option String
  hasSsoTokenProvider : Bool
  hasAzureTokenProvider : Bool
  handlers : List String

/-- Embedding of `startsWith` on strings via the leading-segment test. -/
def strStartsWith (s p : String) : Bool :=
  leadsList p.data s.data

/-- Truthiness of an optional string field: `undefined` and the empty string
are both falsy, matching the source's `if (config.negotiateUrl)` guard, which
treats an empty negotiate URL as unset. -/
def optTruthy : Option String → Bool
  | none => false
  | some s => !(s = "")

/-- Embedding of `validateSignalRConfig`: the thrown error message, or `none` when the
configuration passes (console warnings have no effect).  The negotiate branch
is entered only when `negotiateUrl` is truthy — a missing or empty URL skips
the https check and falls through to the direct-connection validation, which
only warns. -/
def validateSignalRConfigErr (c : SignalRConfig) : Option String :=
  if c.hubUrl = "" then
    some ("SignalR Hub URL is required. Please set REACT_APP_SIGNALR_HUB_URL in your .env file.")
  else if !strStartsWith c.hubUrl "https://" then
    some ("SignalR Hub URL must use HTTPS for security. Current URL: " ++ c.hubUrl)
  else if optTruthy c.negotiateUrl then
    if !strStartsWith (c.negotiateUrl.getD "") "https://" then
      some "SignalR Negotiate URL must use HTTPS for security."
    else none
  else none

/-- Operations `initializeSignalR` performs on a freshly built connection
object, in program order. -/
inductive ConnOp where
  | oncloseCb
  | onreconnectingCb
  | onreconnectedCb
  | register (methodName : String)
  | start
deriving DecidableEq

/-- Observable effect of one `initializeSignalR` call: its result, the ordered
operations applied to the fresh connection object (empty when no fresh
connection is built), and whether the negotiate endpoint was fetched. -/
structure InitRun where
  result : Except String Unit
  ops : List ConnOp
  negotiateCalled : Bool

/-- Embedding of `initializeSignalR` with its awaited collaborators scripted: Office.js
readiness, the module-level initialized/connection flags, the bearer-token
acquisition outcome, the negotiate outcome, and whether `connection.start()`
succeeds.  The negotiate flow is taken only when `negotiateUrl` is truthy
(`if (config.negotiateUrl)`), so an empty string falls through to the direct
connection flow.  Lifecycle callbacks are attached first, then every
configured handler is registered, and only then is `start` invoked. -/
def initializeSignalR (officeReady : Bool) (alreadyInitialized hasConnection : Bool)
    (tokenOutcome : Except String String)
    (negotiateOutcome : Except String NegotiateService.SignalRConnectionInfo)
    (startOk : Bool) (c : SignalRConfig) : InitRun :=
  if !officeReady then
    ⟨.error "Office.js must be initialized before SignalR", [], false⟩
  else
    match validateSignalRConfigErr c with
    | some e => ⟨.error e, [], false⟩
    | none =>
      if alreadyInitialized && hasConnection then ⟨.ok (), [], false⟩
      else
        let negotiated :
            Except String Bool :=
          if optTruthy c.negotiateUrl then
            match tokenOutcome with
            | .error _ => .error "Failed to acquire token for SignalR negotiation"
            | .ok _ =>
              match negotiateOutcome with
              | .error e => .error e
              | .ok _ => .ok true
          else .ok false
        match negotiated with
        | .error e => ⟨.error e, [], optTruthy c.negotiateUrl && tokenOutcome.isOk⟩
        | .ok usedNegotiate =>
          let ops := [ConnOp.oncloseCb, ConnOp.onreconnectingCb, ConnOp.onreconnectedCb]
            ++ c.handlers.map ConnOp.register ++ [ConnOp.start]
          if startOk then ⟨.ok (), ops, usedNegotiate⟩
          else ⟨.error "SignalR connection start failed", ops, usedNegotiate⟩

end SignalrService

/-! ## useSignalR.ts — inbound message normalization -/

namespace UseSignalR

/-- JavaScript values as far as the message handler distinguishes them:
`undefined`, `null`, strings, numbers, booleans, plain objects (association
lists) and arrays. -/
inductive JSValue where
  | vUndefined
  | vNull
  | vStr (s : String)
  | vNum (n : Int)
  | vBool (b : Bool)
  | vObj (fields : List (String × JSValue))
  | vArr (elems : List JSValue)

/-- Embedding of `typeof x === 'object'` (true for `null`, objects and arrays). -/
def typeofIsObject : JSValue → Bool
  | .vNull => true
  | .vObj _ => true
  | .vArr _ => true
  | _ => false

/-- Embedding of `x === null`. -/
def isNull : JSValue → Bool
  | .vNull => true
  | _ => false

/-- JavaScript truthiness. -/
def jsTruthy : JSValue → Bool
  | .vUndefined => false
  | .vNull => false
  | .vStr s => !(s = "")
  | .vNum n => !(n = 0)
  | .vBool b => b
  | .vObj _ => true
  | .vArr _ => true

/-- Property access `o[k]`, `undefined` when absent or not an object. -/
def getField (o : JSValue) (k : String) : JSValue :=
  match o with
  | .vObj fields => (fields.lookup k).getD .vUndefined
  | _ => .vUndefined

/-- The `||` operator on values. -/
def jsOr (a b : JSValue) : JSValue :=
  if jsTruthy a then a else b

/-- Timestamp slot of a normalized message: built from a field value via
`new Date(v)`, or `new Date()` at handling time. -/
inductive TsVal where
  | fromField (v : JSValue)
  | now

/-- Id slot of a normalized message: taken from a field value, or generated
(`crypto.randomUUID()` / `msg-${Date.now()}`). -/
inductive IdVal where
  | fromField (v : JSValue)
  | generated

/-- The canonical `SignalRMessage` record produced by the handler. -/
structure SignalRMessage where
  type : JSValue
  payload : JSValue
  timestamp : TsVal
  id : IdVal

/-- Normalization of a single-object invocation argument. -/
def normalizeObjArg (obj : JSValue) : SignalRMessage :=
  let tsv := jsOr (getField obj "timestamp") (getField obj "Timestamp")
  let idv := jsOr (getField obj "id") (getField obj "Id")
  { type := jsOr (getField obj "type") (jsOr (getField obj "Type") (.vStr "notification"))
    payload := jsOr (getField obj "payload") (jsOr (getField obj "Payload")
      (jsOr (getField obj "data") (jsOr (getField obj "Data") obj)))
    timestamp := if jsTruthy tsv then .fromField tsv else .now
    id := if jsTruthy idv then .fromField idv else .generated }

/-- The `messageHandler` normalization over the invocation argument list. -/
def normalizeMessage : List JSValue → SignalRMessage
  | [] =>
    { type := .vStr "notification", payload := .vNull, timestamp := .now, id := .generated }
  | [a] =>
    if typeofIsObject a && !isNull a then normalizeObjArg a
    else
      { type := .vStr "notification", payload := a, timestamp := .now, id := .generated }
  | a :: rest =>
    { type := match a with
              | .vStr s => .vStr s
              | _ => .vStr "notification"
      payload := match rest with
                 | [b] => b
                 | _ => .vArr rest
      timestamp := .now
      id := .generated }

end UseSignalR

/-! ## Single-flight lemmas for the two token managers -/

namespace TokenManagerService

theorem sso_enter_first (sso : SsoService.SSOState) (now : Int) (s : MgrState)
    (hAuth : SsoService.isSSOAuthenticated sso = true)
    (hInv : isTokenStillValid sso now = false)
    (hSlot : s.refreshSlot = none) :
    enterGetToken sso now s =
      ({ refreshSlot := some s.nextFuture
         nextFuture := s.nextFuture + 1
         started := s.started ++ [s.nextFuture] }, .awaits s.nextFuture) := by
  simp [enterGetToken, hAuth, hInv, hSlot]

theorem sso_enter_stationary (sso : SsoService.SSOState) (now : Int) (s : MgrState) (f : Nat)
    (hAuth : SsoService.isSSOAuthenticated sso = true)
    (hInv : isTokenStillValid sso now = false)
    (hSlot : s.refreshSlot = some f) :
    enterGetToken sso now s = (s, .awaits f) := by
  simp [enterGetToken, hAuth, hInv, hSlot]

theorem sso_runEnters_stationary (sso : SsoService.SSOState) (now : Int) (n : Nat)
    (s : MgrState) (f : Nat)
    (hAuth : SsoService.isSSOAuthenticated sso = true)
    (hInv : isTokenStillValid sso now = false)
    (hSlot : s.refreshSlot = some f) :
    runEnters sso now n s = (s, List.replicate n (.awaits f)) := by
  induction n with
  | zero => simp [runEnters]
  | succ k ih =>
    simp [runEnters, sso_enter_stationary sso now s f hAuth hInv hSlot, ih,
      List.replicate_succ]

end TokenManagerService

namespace AzureTokenService

theorem isTokenValid_config_irrelevant (s : AzMgrState) (c : AzureAdConfig) (now : Int) :
    isTokenValid { s with currentConfig := some c } now = isTokenValid s now := rfl

theorem isTokenValid_eq_of_cachedToken (s s' : AzMgrState)
    (h : s.cachedToken = s'.cachedToken) (now : Int) :
    isTokenValid s now = isTokenValid s' now := by
  unfold isTokenValid
  rw [h]

theorem az_enter_first (c : AzureAdConfig) (now : Int) (s : AzMgrState)
    (hCfg : validateConfigErr c = none)
    (hInv : isTokenValid s now = false)
    (hSlot : s.refreshSlot = none) :
    enterGetToken c now s =
      ({ s with currentConfig := some c
                refreshSlot := some s.nextFuture
                nextFuture := s.nextFuture + 1
                started := s.started ++ [s.nextFuture] }, .awaits s.nextFuture) := by
  obtain ⟨ct, rslot, nf, st, cc⟩ := s
  simp only at hSlot hInv
  subst hSlot
  cases ct with
  | none => simp [enterGetToken, hCfg]
  | some t =>
    simp only [isTokenValid] at hInv
    simp [enterGetToken, hCfg, isTokenValid, hInv]

theorem az_enter_stationary (c : AzureAdConfig) (now : Int) (s : AzMgrState) (f : Nat)
    (hCfg : validateConfigErr c = none)
    (hInv : isTokenValid s now = false)
    (hSlot : s.refreshSlot = some f)
    (hCur : s.currentConfig = some c) :
    enterGetToken c now s = (s, .awaits f) := by
  obtain ⟨ct, rslot, nf, st, cc⟩ := s
  simp only at hSlot hInv hCur
  subst hSlot
  subst hCur
  cases ct with
  | none => simp [enterGetToken, hCfg]
  | some t =>
    simp only [isTokenValid] at hInv
    simp [enterGetToken, hCfg, isTokenValid, hInv]

theorem az_runEnters_stationary (c : AzureAdConfig) (now : Int) (n : Nat)
    (s : AzMgrState) (f : Nat)
    (hCfg : validateConfigErr c = none)
    (hInv : isTokenValid s now = false)
    (hSlot : s.refreshSlot = some f)
    (hCur : s.currentConfig = some c) :
    runEnters c now n s = (s, List.replicate n (.awaits f)) := by
  induction n with
  | zero => simp [runEnters]
  | succ k ih =>
    simp [runEnters, az_enter_stationary c now s f hCfg hInv hSlot hCur, ih,
      List.replicate_succ]

end AzureTokenService

/-- C1: for N concurrent `getToken()` calls on one manager instance (SSO
TokenManager and Azure AzureTokenManager alike) while no valid cached token
exists and no refresh is in flight, exactly one acquisition future is started,
every caller awaits that same future, and hence all callers observe the
identical outcome (the same token value, or the error of the single shared
attempt) — never a mixture. -/
theorem c1_concurrent_getToken_single_flight
    (sso : SsoService.SSOState) (nowS : Int) (s : TokenManagerService.MgrState) (n : Nat)
    (c : AzureTokenService.AzureAdConfig) (nowA : Int) (t : AzureTokenService.AzMgrState) (m : Nat)
    (hAuth : SsoService.isSSOAuthenticated sso = true)
    (hInvS : TokenManagerService.isTokenStillValid sso nowS = false)
    (hSlotS : s.refreshSlot = none) (hn : 1 ≤ n)
    (hCfg : AzureTokenService.validateConfigErr c = none)
    (hInvA : AzureTokenService.isTokenValid t nowA = false)
    (hSlotA : t.refreshSlot = none) (hm : 1 ≤ m) :
    ((TokenManagerService.runEnters sso nowS n s).1.started = s.started ++ [s.nextFuture]
      ∧ (TokenManagerService.runEnters sso nowS n s).2
          = List.replicate n (.awaits s.nextFuture)
      ∧ ∀ outcome r,
          r ∈ ((TokenManagerService.runEnters sso nowS n s).2.map
            (TokenManagerService.callerResult outcome)) → r = outcome s.nextFuture)
    ∧ ((AzureTokenService.runEnters c nowA m t).1.started = t.started ++ [t.nextFuture]
      ∧ (AzureTokenService.runEnters c nowA m t).2
          = List.replicate m (.awaits t.nextFuture)
      ∧ ∀ outcome r,
          r ∈ ((AzureTokenService.runEnters c nowA m t).2.map
            (TokenManagerService.callerResult outcome)) → r = outcome t.nextFuture) := by
  constructor
  · obtain ⟨k, rfl⟩ : ∃ k, n = k + 1 := ⟨n - 1, by omega⟩
    have hfirst := TokenManagerService.sso_enter_first sso nowS s hAuth hInvS hSlotS
    have hrest := TokenManagerService.sso_runEnters_stationary sso nowS k
      { refreshSlot := some s.nextFuture
        nextFuture := s.nextFuture + 1
        started := s.started ++ [s.nextFuture] } s.nextFuture hAuth hInvS rfl
    have hrun : TokenManagerService.runEnters sso nowS (k + 1) s =
        ({ refreshSlot := some s.nextFuture
           nextFuture := s.nextFuture + 1
           started := s.started ++ [s.nextFuture] },
          List.replicate (k + 1) (.awaits s.nextFuture)) := by
      simp [TokenManagerService.runEnters, hfirst, hrest, List.replicate_succ]
    refine ⟨by rw [hrun], by rw [hrun], ?_⟩
    intro outcome r hr
    rw [hrun] at hr
    simp only [List.mem_map, List.mem_replicate] at hr
    obtain ⟨a, ⟨-, rfl⟩, rfl⟩ := hr
    rfl
  · obtain ⟨k, rfl⟩ : ∃ k, m = k + 1 := ⟨m - 1, by omega⟩
    have hfirst := AzureTokenService.az_enter_first c nowA t hCfg hInvA hSlotA
    have hInvA' : AzureTokenService.isTokenValid
        { t with currentConfig := some c
                 refreshSlot := some t.nextFuture
                 nextFuture := t.nextFuture + 1
                 started := t.started ++ [t.nextFuture] } nowA = false := by
      have := AzureTokenService.isTokenValid_eq_of_cachedToken
        { t with currentConfig := some c
                 refreshSlot := some t.nextFuture
                 nextFuture := t.nextFuture + 1
                 started := t.started ++ [t.nextFuture] } t rfl nowA
      rw [this, hInvA]
    have hrest := AzureTokenService.az_runEnters_stationary c nowA k
      { t with currentConfig := some c
               refreshSlot := some t.nextFuture
               nextFuture := t.nextFuture + 1
               started := t.started ++ [t.nextFuture] } t.nextFuture hCfg hInvA' rfl rfl
    have hrun : AzureTokenService.runEnters c nowA (k + 1) t =
        ({ t with currentConfig := some c
                  refreshSlot := some t.nextFuture
                  nextFuture := t.nextFuture + 1
                  started := t.started ++ [t.nextFuture] },
          List.replicate (k + 1) (.awaits t.nextFuture)) := by
      simp [AzureTokenService.runEnters, hfirst, hrest, List.replicate_succ]
    refine ⟨by rw [hrun], by rw [hrun], ?_⟩
    intro outcome r hr
    rw [hrun] at hr
    simp only [List.mem_map, List.mem_replicate] at hr
    obtain ⟨a, ⟨-, rfl⟩, rfl⟩ := hr
    rfl

/-- Witness for C1 at concrete inputs: an expired SSO token with two racing
callers and an empty Azure cache with three racing callers. -/
theorem c1_concurrent_getToken_single_flight_witness :
    SsoService.isSSOAuthenticated ⟨true, some ⟨"tok", 0, [], "u", none, none⟩⟩ = true
    ∧ TokenManagerService.isTokenStillValid ⟨true, some ⟨"tok", 0, [], "u", none, none⟩⟩ 1000000 = false
    ∧ AzureTokenService.validateConfigErr ⟨"tenant", "client", "secret", "api://x/.default"⟩ = none
    ∧ AzureTokenService.isTokenValid ⟨none, none, 5, [], none⟩ 0 = false
    ∧ (TokenManagerService.runEnters ⟨true, some ⟨"tok", 0, [], "u", none, none⟩⟩ 1000000 2
        ⟨none, 0, []⟩).2 = List.replicate 2 (.awaits 0)
    ∧ (AzureTokenService.runEnters ⟨"tenant", "client", "secret", "api://x/.default"⟩ 0 3
        ⟨none, none, 5, [], none⟩).2 = List.replicate 3 (.awaits 5) :=
  ⟨by decide, by decide, by decide, by decide,
    (c1_concurrent_getToken_single_flight
      ⟨true, some ⟨"tok", 0, [], "u", none, none⟩⟩ 1000000 ⟨none, 0, []⟩ 2
      ⟨"tenant", "client", "secret", "api://x/.default"⟩ 0 ⟨none, none, 5, [], none⟩ 3
      (by decide) (by decide) rfl (by decide)
      (by decide) (by decide) rfl (by decide)).1.2.1,
    (c1_concurrent_getToken_single_flight
      ⟨true, some ⟨"tok", 0, [], "u", none, none⟩⟩ 1000000 ⟨none, 0, []⟩ 2
      ⟨"tenant", "client", "secret", "api://x/.default"⟩ 0 ⟨none, none, 5, [], none⟩ 3
      (by decide) (by decide) rfl (by decide)
      (by decide) (by decide) rfl (by decide)).2.2.1⟩

namespace SignalrService

theorem takeWhile_all_append (p : ConnOp → Bool) (A B : List ConnOp)
    (h : ∀ x ∈ A, p x = true) :
    (A ++ B).takeWhile p = A ++ B.takeWhile p := by
  induction A with
  | nil => simp
  | cons a l ih =>
    have ha : p a = true := h a (by simp)
    have hl : ∀ x ∈ l, p x = true := fun x hx => h x (by simp [hx])
    simp [List.takeWhile_cons, ha, ih hl]

theorem initializeSignalR_ops_dichotomy (officeReady alreadyInitialized hasConnection : Bool)
    (tok : Except String String) (neg : Except String NegotiateService.SignalRConnectionInfo)
    (startOk : Bool) (c : SignalRConfig) :
    (initializeSignalR officeReady alreadyInitialized hasConnection tok neg startOk c).ops = []
    ∨ (initializeSignalR officeReady alreadyInitialized hasConnection tok neg startOk c).ops =
        [ConnOp.oncloseCb, ConnOp.onreconnectingCb, ConnOp.onreconnectedCb]
          ++ c.handlers.map ConnOp.register ++ [ConnOp.start] := by
  unfold initializeSignalR
  split
  · left; rfl
  · split
    · left; rfl
    · split
      · left; rfl
      · cases hurl : optTruthy c.negotiateUrl <;> cases tok <;> cases neg <;> cases startOk <;>
          first
          | (left; rfl)
          | (right; rfl)

end SignalrService

/-- C2: in every `initializeSignalR` run, whenever `start()` is invoked on the
fresh connection object, every configured `(methodName, handler)` pair was
already registered on it: each `register` operation occurs in the prefix of
the operation trace strictly before the `start` operation. -/
theorem c2_handlers_registered_before_start
    (officeReady alreadyInitialized hasConnection : Bool)
    (tok : Except String String) (neg : Except String NegotiateService.SignalRConnectionInfo)
    (startOk : Bool) (c : SignalrService.SignalRConfig)
    (hstart : SignalrService.ConnOp.start ∈
      (SignalrService.initializeSignalR officeReady alreadyInitialized hasConnection
        tok neg startOk c).ops)
    (h : String) (hmem : h ∈ c.handlers) :
    SignalrService.ConnOp.register h ∈
      ((SignalrService.initializeSignalR officeReady alreadyInitialized hasConnection
        tok neg startOk c).ops.takeWhile
          (fun o => !(o == SignalrService.ConnOp.start))) := by
  rcases SignalrService.initializeSignalR_ops_dichotomy officeReady alreadyInitialized
    hasConnection tok neg startOk c with hops | hops
  · rw [hops] at hstart
    simp at hstart
  · rw [hops]
    rw [List.append_assoc]
    rw [SignalrService.takeWhile_all_append]
    · have hreg : SignalrService.ConnOp.register h ∈ c.handlers.map SignalrService.ConnOp.register :=
        List.mem_map.mpr ⟨h, hmem, rfl⟩
      have htw : (c.handlers.map SignalrService.ConnOp.register
          ++ [SignalrService.ConnOp.start]).takeWhile
            (fun o => !(o == SignalrService.ConnOp.start)) =
          c.handlers.map SignalrService.ConnOp.register := by
        rw [SignalrService.takeWhile_all_append]
        · simp [List.takeWhile_cons]
        · intro x hx
          obtain ⟨y, -, rfl⟩ := List.mem_map.mp hx
          simp
      rw [htw]
      simp [hreg]
    · intro x hx
      simp only [List.mem_cons, List.not_mem_nil, or_false] at hx
      rcases hx with rfl | rfl | rfl <;> rfl

/-- Witness for C2: a successful run with two configured handlers; the first
handler is registered in the trace prefix strictly before `start`. -/
theorem c2_handlers_registered_before_start_witness :
    SignalrService.ConnOp.start ∈
      (SignalrService.initializeSignalR true false false (.ok "bearer")
        (.ok ⟨"wss://svc.example", "transport-token"⟩) true
        ⟨"https://hub.example", none, none, false, false,
          ["NotificationReceived", "BroadcastMessage"]⟩).ops
    ∧ "NotificationReceived" ∈ ["NotificationReceived", "BroadcastMessage"]
    ∧ SignalrService.ConnOp.register "NotificationReceived" ∈
        ((SignalrService.initializeSignalR true false false (.ok "bearer")
          (.ok ⟨"wss://svc.example", "transport-token"⟩) true
          ⟨"https://hub.example", none, none, false, false,
            ["NotificationReceived", "BroadcastMessage"]⟩).ops.takeWhile
            (fun o => !(o == SignalrService.ConnOp.start))) :=
  ⟨by decide, by decide,
    c2_handlers_registered_before_start true false false (.ok "bearer")
      (.ok ⟨"wss://svc.example", "transport-token"⟩) true
      ⟨"https://hub.example", none, none, false, false,
        ["NotificationReceived", "BroadcastMessage"]⟩
      (by decide) "NotificationReceived" (by decide)⟩

/-- C3 counterexample: on the SSO TokenManager, `forceRefresh` clears only the
in-flight refresh promise.  With a still-valid cached token (expiry 1000000,
now 0) and an in-flight future 7, `forceRefresh` returns the previously cached
token `tok-A` from cache and starts no acquisition — contradicting the claim
that the cached token is discarded and the acquisition path is taken. -/
theorem c3_forceRefresh_discards_counterexample :
    TokenManagerService.forceRefreshEnter
        ⟨true, some ⟨"tok-A", 1000000, [], "u", none, none⟩⟩ 0 ⟨some 7, 3, []⟩
      = (⟨none, 3, []⟩, .cached "tok-A")
    ∧ (TokenManagerService.forceRefreshEnter
        ⟨true, some ⟨"tok-A", 1000000, [], "u", none, none⟩⟩ 0 ⟨some 7, 3, []⟩).1.started
      = [] := by
  constructor <;> rfl

/-- C3 amended: after `forceRefresh`, the Azure client-credentials manager
discards both the cached token and any in-flight refresh future, so the
acquisition path is taken at once; the SSO manager discards only the in-flight
refresh future — when its cached token is no longer valid a fresh acquisition
is started, but when the cached token is still valid the previously cached
token is returned with no new acquisition. -/
theorem c3_forceRefresh_discards_amended
    (c : AzureTokenService.AzureAdConfig) (nowA : Int) (t : AzureTokenService.AzMgrState)
    (sso : SsoService.SSOState) (nowS : Int) (s : TokenManagerService.MgrState)
    (tok : String)
    (hCfg : AzureTokenService.validateConfigErr c = none)
    (hAuth : SsoService.isSSOAuthenticated sso = true) :
    AzureTokenService.forceRefreshEnter c nowA t =
      (⟨none, some t.nextFuture, t.nextFuture + 1, t.started ++ [t.nextFuture], some c⟩,
        .awaits t.nextFuture)
    ∧ (TokenManagerService.isTokenStillValid sso nowS = false →
        TokenManagerService.forceRefreshEnter sso nowS s =
          (⟨some s.nextFuture, s.nextFuture + 1, s.started ++ [s.nextFuture]⟩,
            .awaits s.nextFuture))
    ∧ (TokenManagerService.isTokenStillValid sso nowS = true →
        SsoService.getCurrentToken sso = some tok →
        TokenManagerService.forceRefreshEnter sso nowS s =
          ({ s with refreshSlot := none }, .cached tok)) := by
  refine ⟨?_, ?_, ?_⟩
  · have h := AzureTokenService.az_enter_first c nowA
      { t with cachedToken := none, refreshSlot := none } hCfg (by rfl) rfl
    simpa [AzureTokenService.forceRefreshEnter] using h
  · intro hInv
    have h := TokenManagerService.sso_enter_first sso nowS
      { s with refreshSlot := none } hAuth hInv rfl
    simpa [TokenManagerService.forceRefreshEnter] using h
  · intro hValid hCur
    simp [TokenManagerService.forceRefreshEnter, TokenManagerService.enterGetToken,
      hAuth, hValid, hCur]

/-- Witness for C3 amended: an Azure manager holding a still-valid cached
token is forced onto the acquisition path, and the SSO manager with a
still-valid cached token returns it from cache. -/
theorem c3_forceRefresh_discards_amended_witness :
    AzureTokenService.validateConfigErr ⟨"tenant", "client", "secret", "api://x/.default"⟩ = none
    ∧ SsoService.isSSOAuthenticated ⟨true, some ⟨"tok-A", 1000000, [], "u", none, none⟩⟩ = true
    ∧ TokenManagerService.isTokenStillValid
        ⟨true, some ⟨"tok-A", 1000000, [], "u", none, none⟩⟩ 0 = true
    ∧ SsoService.getCurrentToken ⟨true, some ⟨"tok-A", 1000000, [], "u", none, none⟩⟩
        = some "tok-A"
    ∧ AzureTokenService.forceRefreshEnter ⟨"tenant", "client", "secret", "api://x/.default"⟩ 50
        ⟨some ⟨"old", 10000000, 0⟩, some 4, 9, [], none⟩
      = (⟨none, some 9, 10, [9], some ⟨"tenant", "client", "secret", "api://x/.default"⟩⟩,
          .awaits 9)
    ∧ TokenManagerService.forceRefreshEnter
        ⟨true, some ⟨"tok-A", 1000000, [], "u", none, none⟩⟩ 0 ⟨some 7, 3, []⟩
      = (⟨none, 3, []⟩, .cached "tok-A") :=
  ⟨by decide, by decide, by decide, by decide,
    (c3_forceRefresh_discards_amended ⟨"tenant", "client", "secret", "api://x/.default"⟩ 50
      ⟨some ⟨"old", 10000000, 0⟩, some 4, 9, [], none⟩
      ⟨true, some ⟨"tok-A", 1000000, [], "u", none, none⟩⟩ 0 ⟨some 7, 3, []⟩ "tok-A"
      (by decide) (by decide)).1,
    (c3_forceRefresh_discards_amended ⟨"tenant", "client", "secret", "api://x/.default"⟩ 50
      ⟨some ⟨"old", 10000000, 0⟩, some 4, 9, [], none⟩
      ⟨true, some ⟨"tok-A", 1000000, [], "u", none, none⟩⟩ 0 ⟨some 7, 3, []⟩ "tok-A"
      (by decide) (by decide)).2.2 (by decide) (by decide)⟩

namespace NegotiateService

theorem lowerData_append (s t : String) :
    lowerData (s ++ t) = lowerData s ++ lowerData t := by
  simp [lowerData, string_data_append]

theorem isAuthError_authFailMsg (status : Nat) (text : String)
    (h : status = 401 ∨ status = 403) :
    isAuthError (authFailMsg status text) = true := by
  have hocc : occursIn "authentication failed".data (lowerData (authFailMsg status text)) = true := by
    rcases h with rfl | rfl <;>
    · rw [authFailMsg, lowerData_append]
      exact occursIn_append_left _ _ _ (by decide)
  simp [isAuthError, hocc]

theorem negotiateLoop_auth_immediate (responses : Nat → AttemptOutcome)
    (retryDelayMs maxRetries attempt fuel : Nat) (last : Option String) (e : String)
    (hfuel : 1 ≤ fuel)
    (hresp : evalAttempt (responses attempt) = .error e)
    (hauth : isAuthError e = true) :
    negotiateLoop responses retryDelayMs maxRetries attempt fuel last =
      ⟨.error e, 1, []⟩ := by
  obtain ⟨f, rfl⟩ : ∃ f, fuel = f + 1 := ⟨fuel - 1, by omega⟩
  simp [negotiateLoop, hresp, hauth]

end NegotiateService

/-- C4: when the negotiate endpoint answers the first attempt with HTTP 401 or
403, `negotiate` issues exactly one HTTP request, sleeps no backoff delay, and
rejects with the authentication-class error of that response — no retry. -/
theorem c4_auth_error_single_call (responses : Nat → NegotiateService.AttemptOutcome)
    (config : NegotiateService.NegotiateConfig) (bearer : String) (status : Nat) (text : String)
    (hurl : config.negotiateUrl ≠ "") (htok : bearer ≠ "")
    (hmax : 1 ≤ config.maxRetries.getD 3)
    (hresp : responses 1 = .httpFail status text)
    (hstatus : status = 401 ∨ status = 403) :
    NegotiateService.negotiate responses config bearer =
      ⟨.error (NegotiateService.authFailMsg status text), 1, []⟩
    ∧ NegotiateService.isAuthError (NegotiateService.authFailMsg status text) = true := by
  have hauth := NegotiateService.isAuthError_authFailMsg status text hstatus
  have heval : NegotiateService.evalAttempt (responses 1) =
      .error (NegotiateService.authFailMsg status text) := by
    rw [hresp]
    simp [NegotiateService.evalAttempt, hstatus]
  refine ⟨?_, hauth⟩
  rw [NegotiateService.negotiate]
  simp only [hurl, htok, if_false, if_neg hurl, if_neg htok]
  exact NegotiateService.negotiateLoop_auth_immediate responses
    (config.retryDelayMs.getD 1000) (config.maxRetries.getD 3) 1
    (config.maxRetries.getD 3) none _ hmax heval hauth

/-- Witness for C4: a 401 with body text `denied` on the first attempt. -/
theorem c4_auth_error_single_call_witness :
    ("https://n.example/negotiate" : String) ≠ ""
    ∧ ("tok" : String) ≠ ""
    ∧ NegotiateService.negotiate (fun _ => .httpFail 401 "denied")
        ⟨"https://n.example/negotiate", none, none⟩ "tok" =
      ⟨.error (NegotiateService.authFailMsg 401 "denied"), 1, []⟩
    ∧ NegotiateService.isAuthError (NegotiateService.authFailMsg 401 "denied") = true :=
  ⟨by decide, by decide,
    (c4_auth_error_single_call (fun _ => .httpFail 401 "denied")
      ⟨"https://n.example/negotiate", none, none⟩ "tok" 401 "denied"
      (by decide) (by decide) (by decide) rfl (Or.inl rfl)).1,
    (c4_auth_error_single_call (fun _ => .httpFail 401 "denied")
      ⟨"https://n.example/negotiate", none, none⟩ "tok" 401 "denied"
      (by decide) (by decide) (by decide) rfl (Or.inl rfl)).2⟩

/-- C5 counterexample: a first attempt failing with HTTP 500 and body text
`unauthorized` — a 5xx failure, which the claim says is retried — is thrown
without any retry, because `isAuthError` sniffs the word `unauthorized` in the
error message: one call, no backoff, immediate rejection. -/
theorem c5_retry_counterexample :
    NegotiateService.negotiate (fun _ => .httpFail 500 "unauthorized")
        ⟨"https://n.example/negotiate", none, none⟩ "tok"
      = ⟨.error (NegotiateService.httpFailMsg 500 "unauthorized"), 1, []⟩ := rfl

namespace NegotiateService

theorem negotiateLoop_all_fail (responses : Nat → AttemptOutcome)
    (retryDelayMs maxRetries : Nat) (msgs : Nat → String) :
    ∀ fuel attempt last, 1 ≤ fuel → attempt + fuel = maxRetries + 1 →
    (∀ k, attempt ≤ k → k ≤ maxRetries → evalAttempt (responses k) = .error (msgs k)) →
    (∀ k, attempt ≤ k → k ≤ maxRetries → isAuthError (msgs k) = false) →
    negotiateLoop responses retryDelayMs maxRetries attempt fuel last =
      ⟨.error (aggregateMsg maxRetries (some (msgs maxRetries))), fuel,
        (List.range' attempt (fuel - 1)).map (fun a => retryDelayMs * 2 ^ (a - 1))⟩ := by
  intro fuel
  induction fuel with
  | zero => intro attempt last h; omega
  | succ f ih =>
    intro attempt last _ hsum hfail hnonauth
    have hle : attempt ≤ maxRetries := by omega
    have heval := hfail attempt le_rfl hle
    have hauth := hnonauth attempt le_rfl hle
    by_cases hf0 : f = 0
    · subst hf0
      have hatt : attempt = maxRetries := by omega
      subst hatt
      simp [negotiateLoop, heval, hauth]
    · have hrec := ih (attempt + 1) (some (msgs attempt)) (by omega) (by omega)
        (fun k hk1 hk2 => hfail k (by omega) hk2)
        (fun k hk1 hk2 => hnonauth k (by omega) hk2)
      simp only [negotiateLoop, heval, hauth, Bool.false_eq_true, if_false, hf0,
        if_neg hf0]
      rw [hrec]
      obtain ⟨f', rfl⟩ : ∃ f', f = f' + 1 := ⟨f - 1, by omega⟩
      simp [List.range'_succ]

end NegotiateService

/-- C5 amended: every negotiate failure whose thrown error message does not
match the authentication heuristic (lower-cased message containing `401`,
`403`, `authentication failed` or `unauthorized`) is retried up to
`maxRetries` total attempts (default 3) with backoff delay
`retryDelayMs * 2^(attempt-1)` slept between consecutive attempts, and after
the final failed attempt `negotiate` rejects with the aggregate error naming
the attempt count and the last cause.  (As stated, the claim is false: a 5xx
or network failure whose message happens to contain an auth marker is thrown
immediately without retry — see the counterexample.) -/
theorem c5_retry_backoff_amended (responses : Nat → NegotiateService.AttemptOutcome)
    (config : NegotiateService.NegotiateConfig) (bearer : String) (msgs : Nat → String)
    (hurl : config.negotiateUrl ≠ "") (htok : bearer ≠ "")
    (hmax : 1 ≤ config.maxRetries.getD 3)
    (hfail : ∀ k, 1 ≤ k → k ≤ config.maxRetries.getD 3 →
      NegotiateService.evalAttempt (responses k) = .error (msgs k))
    (hnonauth : ∀ k, 1 ≤ k → k ≤ config.maxRetries.getD 3 →
      NegotiateService.isAuthError (msgs k) = false) :
    NegotiateService.negotiate responses config bearer =
      ⟨.error (NegotiateService.aggregateMsg (config.maxRetries.getD 3)
          (some (msgs (config.maxRetries.getD 3)))),
        config.maxRetries.getD 3,
        (List.range' 1 (config.maxRetries.getD 3 - 1)).map
          (fun a => config.retryDelayMs.getD 1000 * 2 ^ (a - 1))⟩ := by
  rw [NegotiateService.negotiate]
  simp only [if_neg hurl, if_neg htok]
  exact NegotiateService.negotiateLoop_all_fail responses
    (config.retryDelayMs.getD 1000) (config.maxRetries.getD 3) msgs
    (config.maxRetries.getD 3) 1 none hmax (by omega) hfail hnonauth

/-- Witness for C5 amended: `maxRetries = 3` (default), `retryDelayMs = 100`,
every attempt a 500 — three calls with delays 100 and 200 ms between them
(attempts at t = 0, 100, 300 cumulative), then the aggregate error. -/
theorem c5_retry_backoff_amended_witness :
    NegotiateService.isAuthError (NegotiateService.httpFailMsg 500 "boom") = false
    ∧ NegotiateService.negotiate (fun _ => .httpFail 500 "boom")
        ⟨"https://n.example/negotiate", none, some 100⟩ "tok"
      = ⟨.error (NegotiateService.aggregateMsg 3
            (some (NegotiateService.httpFailMsg 500 "boom"))), 3, [100, 200]⟩ :=
  ⟨by decide,
    c5_retry_backoff_amended (fun _ => .httpFail 500 "boom")
      ⟨"https://n.example/negotiate", none, some 100⟩ "tok"
      (fun _ => NegotiateService.httpFailMsg 500 "boom")
      (by decide) (by decide) (by decide)
      (fun _ _ _ => rfl) (fun _ _ _ => rfl)⟩

/-- C6: both managers treat a cached token as valid exactly when its remaining
lifetime strictly exceeds the five-minute refresh threshold.  At the enter
step of `getToken`, a token expiring in three minutes is invalid and starts an
acquisition, while one expiring in ten minutes is returned straight from
cache with no acquisition. -/
theorem c6_refresh_threshold_validity
    (c : AzureTokenService.AzureAdConfig) (nowA : Int)
    (t : AzureTokenService.CachedAzureToken) (s : AzureTokenService.AzMgrState)
    (sso : SsoService.SSOState) (tok : SsoService.SSOToken) (nowS : Int)
    (m : TokenManagerService.MgrState)
    (hA : s.cachedToken = some t)
    (hS : sso.token = some tok) :
    (AzureTokenService.isTokenValid s nowA = true ↔ t.expiresAt - nowA > 5 * 60 * 1000)
    ∧ (TokenManagerService.isTokenStillValid sso nowS = true ↔
        tok.expiresAt - nowS > 5 * 60 * 1000)
    ∧ (t.expiresAt = nowA + 3 * 60 * 1000 → AzureTokenService.validateConfigErr c = none →
        s.refreshSlot = none →
        AzureTokenService.enterGetToken c nowA s =
          ({ s with currentConfig := some c
                    refreshSlot := some s.nextFuture
                    nextFuture := s.nextFuture + 1
                    started := s.started ++ [s.nextFuture] }, .awaits s.nextFuture))
    ∧ (t.expiresAt = nowA + 10 * 60 * 1000 → AzureTokenService.validateConfigErr c = none →
        AzureTokenService.enterGetToken c nowA s =
          ({ s with currentConfig := some c }, .cached t.token))
    ∧ (tok.expiresAt = nowS + 3 * 60 * 1000 → SsoService.isSSOAuthenticated sso = true →
        m.refreshSlot = none →
        TokenManagerService.enterGetToken sso nowS m =
          (⟨some m.nextFuture, m.nextFuture + 1, m.started ++ [m.nextFuture]⟩,
            .awaits m.nextFuture))
    ∧ (tok.expiresAt = nowS + 10 * 60 * 1000 → SsoService.isSSOAuthenticated sso = true →
        tok.token ≠ "" →
        TokenManagerService.enterGetToken sso nowS m = (m, .cached tok.token)) := by
  have hAiff : AzureTokenService.isTokenValid s nowA = true ↔
      t.expiresAt - nowA > 5 * 60 * 1000 := by
    simp only [AzureTokenService.isTokenValid, hA, AzureTokenService.REFRESH_THRESHOLD_MS,
      decide_eq_true_eq]
    omega
  have hvd : SsoService.isTokenValid sso nowS =
      decide (tok.expiresAt > nowS + 5 * 60 * 1000) := by
    simp [SsoService.isTokenValid, hS]
  have httl : SsoService.getTimeUntilExpiry sso nowS =
      some (max 0 (tok.expiresAt - nowS)) := by
    simp [SsoService.getTimeUntilExpiry, hS]
  have hSiff : TokenManagerService.isTokenStillValid sso nowS = true ↔
      tok.expiresAt - nowS > 5 * 60 * 1000 := by
    constructor
    · intro h
      by_contra hcon
      have hv : SsoService.isTokenValid sso nowS = false := by
        rw [hvd]
        exact decide_eq_false (by omega)
      rw [TokenManagerService.isTokenStillValid, hv] at h
      simp at h
    · intro h
      have hv : SsoService.isTokenValid sso nowS = true := by
        rw [hvd]
        exact decide_eq_true (by omega)
      rw [TokenManagerService.isTokenStillValid, hv, httl]
      simp only [Bool.not_true, Bool.false_eq_true, if_false,
        TokenManagerService.REFRESH_THRESHOLD_MS, decide_eq_true_eq]
      have hmax := le_max_right (0 : Int) (tok.expiresAt - nowS)
      omega
  refine ⟨hAiff, hSiff, ?_, ?_, ?_, ?_⟩
  · intro hexp hCfg hSlot
    have hInv : AzureTokenService.isTokenValid s nowA = false := by
      cases h : AzureTokenService.isTokenValid s nowA
      · rfl
      · exact absurd (hAiff.mp h) (by omega)
    exact AzureTokenService.az_enter_first c nowA s hCfg hInv hSlot
  · intro hexp hCfg
    have hValid : AzureTokenService.isTokenValid
        ⟨some t, s.refreshSlot, s.nextFuture, s.started, some c⟩ nowA = true := by
      simp only [AzureTokenService.isTokenValid, AzureTokenService.REFRESH_THRESHOLD_MS,
        decide_eq_true_eq]
      omega
    simp [AzureTokenService.enterGetToken, hCfg, hA, hValid]
  · intro hexp hAuth hSlot
    have hInv : TokenManagerService.isTokenStillValid sso nowS = false := by
      cases h : TokenManagerService.isTokenStillValid sso nowS
      · rfl
      · exact absurd (hSiff.mp h) (by omega)
    exact TokenManagerService.sso_enter_first sso nowS m hAuth hInv hSlot
  · intro hexp hAuth htok
    have hValid : TokenManagerService.isTokenStillValid sso nowS = true := hSiff.mpr (by omega)
    have hCur : SsoService.getCurrentToken sso = some tok.token := by
      simp [SsoService.getCurrentToken, hS, htok]
    simp [TokenManagerService.enterGetToken, hAuth, hValid, hCur]

/-- Witness for C6: tokens expiring three and ten minutes from now at both
managers (now = 0). -/
theorem c6_refresh_threshold_validity_witness :
    (AzureTokenService.AzMgrState.cachedToken ⟨some ⟨"az", 600000, 0⟩, none, 2, [], none⟩
      = some ⟨"az", 600000, 0⟩)
    ∧ (SsoService.SSOState.token ⟨true, some ⟨"ss", 600000, [], "u", none, none⟩⟩
      = some ⟨"ss", 600000, [], "u", none, none⟩)
    ∧ (AzureTokenService.isTokenValid ⟨some ⟨"az", 600000, 0⟩, none, 2, [], none⟩ 0 = true ↔
        (600000 : Int) - 0 > 5 * 60 * 1000)
    ∧ (AzureTokenService.enterGetToken ⟨"tenant", "client", "secret", "api://x/.default"⟩ 0
        ⟨some ⟨"az", 600000, 0⟩, none, 2, [], none⟩
      = (⟨some ⟨"az", 600000, 0⟩, none, 2, [],
          some ⟨"tenant", "client", "secret", "api://x/.default"⟩⟩, .cached "az"))
    ∧ (TokenManagerService.enterGetToken ⟨true, some ⟨"ss", 180000, [], "u", none, none⟩⟩ 0
        ⟨none, 2, []⟩ = (⟨some 2, 3, [2]⟩, .awaits 2)) := by
  refine ⟨rfl, rfl, ?_, ?_, ?_⟩
  · exact (c6_refresh_threshold_validity ⟨"tenant", "client", "secret", "api://x/.default"⟩ 0
      ⟨"az", 600000, 0⟩ ⟨some ⟨"az", 600000, 0⟩, none, 2, [], none⟩
      ⟨true, some ⟨"ss", 600000, [], "u", none, none⟩⟩ ⟨"ss", 600000, [], "u", none, none⟩ 0
      ⟨none, 2, []⟩ rfl rfl).1
  · exact (c6_refresh_threshold_validity ⟨"tenant", "client", "secret", "api://x/.default"⟩ 0
      ⟨"az", 600000, 0⟩ ⟨some ⟨"az", 600000, 0⟩, none, 2, [], none⟩
      ⟨true, some ⟨"ss", 600000, [], "u", none, none⟩⟩ ⟨"ss", 600000, [], "u", none, none⟩ 0
      ⟨none, 2, []⟩ rfl rfl).2.2.2.1 (by decide) (by decide)
  · exact (c6_refresh_threshold_validity ⟨"tenant", "client", "secret", "api://x/.default"⟩ 0
      ⟨"az", 600000, 0⟩ ⟨some ⟨"az", 600000, 0⟩, none, 2, [], none⟩
      ⟨true, some ⟨"ss", 180000, [], "u", none, none⟩⟩ ⟨"ss", 180000, [], "u", none, none⟩ 0
      ⟨none, 2, []⟩ rfl rfl).2.2.2.2.1 (by decide) (by decide) rfl

/-- C7 counterexample: `negotiate` called directly with the non-https endpoint
`http://insecure.example/negotiate` performs an HTTP request (one call) and
even succeeds — it raises no configuration-class error, so the https-scheme
check claimed for `negotiate` does not happen inside `negotiate`. -/
theorem c7_precall_validation_counterexample :
    NegotiateService.negotiate (fun _ => .success ⟨some "wss://svc.example", some "t"⟩)
        ⟨"http://insecure.example/negotiate", none, none⟩ "tok"
      = ⟨.ok ⟨"wss://svc.example", "t"⟩, 1, []⟩ := rfl

/-- C7 amended: `negotiate` itself validates only that the negotiate URL and
the bearer token are non-empty, failing fast with a configuration-class error
and zero HTTP calls when either is empty.  The https-scheme requirement on the
negotiate endpoint is enforced by `validateSignalRConfig`, which runs inside
`initializeSignalR` before `negotiate`, so in the SignalR initialization flow
a configured (truthy, i.e. non-empty) negotiate URL that is not https fails
fast with a configuration error and `negotiate` is never invoked (no HTTP
call, no retry); an empty negotiate URL is falsy and is treated as unset, so
the direct-connection flow is taken instead. -/
theorem c7_precall_validation_amended
    (responsesA responsesB : Nat → NegotiateService.AttemptOutcome)
    (configA configB : NegotiateService.NegotiateConfig) (bearer : String)
    (sc : SignalrService.SignalRConfig) (u : String)
    (hemptyA : configA.negotiateUrl = "")
    (hurlB : configB.negotiateUrl ≠ "")
    (hhub : sc.hubUrl ≠ "")
    (hhubSecure : SignalrService.strStartsWith sc.hubUrl "https://" = true)
    (hneg : sc.negotiateUrl = some u)
    (huNonempty : u ≠ "")
    (huInsecure : SignalrService.strStartsWith u "https://" = false) :
    NegotiateService.negotiate responsesA configA bearer =
      ⟨.error "Negotiate URL is required", 0, []⟩
    ∧ NegotiateService.negotiate responsesB configB "" =
      ⟨.error "Bearer token is required for negotiate", 0, []⟩
    ∧ SignalrService.validateSignalRConfigErr sc =
      some "SignalR Negotiate URL must use HTTPS for security."
    ∧ ∀ alreadyInitialized hasConnection startOk (tokO : Except String String)
        (negO : Except String NegotiateService.SignalRConnectionInfo),
        SignalrService.initializeSignalR true alreadyInitialized hasConnection
            tokO negO startOk sc =
          ⟨.error "SignalR Negotiate URL must use HTTPS for security.", [], false⟩ := by
  have hval : SignalrService.validateSignalRConfigErr sc =
      some "SignalR Negotiate URL must use HTTPS for security." := by
    simp [SignalrService.validateSignalRConfigErr, SignalrService.optTruthy,
      hhub, hhubSecure, hneg, huNonempty, huInsecure]
  refine ⟨?_, ?_, hval, ?_⟩
  · simp [NegotiateService.negotiate, hemptyA]
  · simp [NegotiateService.negotiate, hurlB]
  · intro alreadyInitialized hasConnection startOk tokO negO
    simp [SignalrService.initializeSignalR, hval]

/-- Witness for C7 amended: empty negotiate URL, empty bearer token, and an
`http://` negotiate endpoint inside an otherwise valid SignalR config. -/
theorem c7_precall_validation_amended_witness :
    NegotiateService.negotiate (fun _ => .httpFail 500 "x") ⟨"", none, none⟩ "tok" =
      ⟨.error "Negotiate URL is required", 0, []⟩
    ∧ NegotiateService.negotiate (fun _ => .httpFail 500 "x")
        ⟨"https://n.example/negotiate", none, none⟩ "" =
      ⟨.error "Bearer token is required for negotiate", 0, []⟩
    ∧ SignalrService.validateSignalRConfigErr
        ⟨"https://hub.example", some "http://neg.example", none, false, false, []⟩ =
      some "SignalR Negotiate URL must use HTTPS for security."
    ∧ SignalrService.initializeSignalR true false false (.ok "tok")
        (.ok ⟨"wss://svc.example", "t"⟩) true
        ⟨"https://hub.example", some "http://neg.example", none, false, false, []⟩ =
      ⟨.error "SignalR Negotiate URL must use HTTPS for security.", [], false⟩ := by
  have h := c7_precall_validation_amended (fun _ => .httpFail 500 "x")
    (fun _ => .httpFail 500 "x") ⟨"", none, none⟩ ⟨"https://n.example/negotiate", none, none⟩
    "tok" ⟨"https://hub.example", some "http://neg.example", none, false, false, []⟩
    "http://neg.example" rfl (by decide) (by decide) (by decide) rfl (by decide) (by decide)
  exact ⟨h.1, h.2.1, h.2.2.1, h.2.2.2 false false true (.ok "tok")
    (.ok ⟨"wss://svc.example", "t"⟩)⟩

/-- C8: the inbound message handler normalizes every invocation shape into the
canonical record: zero arguments give an empty notification with generated
id/timestamp; a single object argument has its fields read across casing
variants (so `{Type: "x", Data: {a: 1}}` becomes type `x` with payload
`{a: 1}`); a single non-object argument is wrapped as the payload of a
notification; and with multiple arguments a string first argument becomes the
type while the remainder becomes the payload, a single remaining argument
unwrapped (so `("alert", {msg: "hi"})` gives type `alert`, payload
`{msg: "hi"}`) and several remaining arguments collected as a sequence. -/
theorem c8_message_normalization
    (v a : UseSignalR.JSValue) (rest : List UseSignalR.JSValue) (s : String)
    (hv : (UseSignalR.typeofIsObject v && !UseSignalR.isNull v) = false) :
    UseSignalR.normalizeMessage [] =
      ⟨.vStr "notification", .vNull, .now, .generated⟩
    ∧ UseSignalR.normalizeMessage
        [.vObj [("Type", .vStr "x"), ("Data", .vObj [("a", .vNum 1)])]] =
      ⟨.vStr "x", .vObj [("a", .vNum 1)], .now, .generated⟩
    ∧ UseSignalR.normalizeMessage [v] = ⟨.vStr "notification", v, .now, .generated⟩
    ∧ UseSignalR.normalizeMessage [.vStr "alert", .vObj [("msg", .vStr "hi")]] =
      ⟨.vStr "alert", .vObj [("msg", .vStr "hi")], .now, .generated⟩
    ∧ UseSignalR.normalizeMessage (.vStr s :: a :: rest) =
      ⟨.vStr s, (match rest with | [] => a | _ => .vArr (a :: rest)), .now,
        .generated⟩ := by
  refine ⟨rfl, rfl, ?_, rfl, ?_⟩
  · simp [UseSignalR.normalizeMessage, hv]
  · cases rest with
    | nil => rfl
    | cons r rs => rfl

/-- Witness for C8: the single non-object argument `42` and the two-argument
invocation `("evt", true)`. -/
theorem c8_message_normalization_witness :
    (UseSignalR.typeofIsObject (.vNum 42) && !UseSignalR.isNull (.vNum 42)) = false
    ∧ UseSignalR.normalizeMessage [.vNum 42] =
      ⟨.vStr "notification", .vNum 42, .now, .generated⟩
    ∧ UseSignalR.normalizeMessage [.vStr "evt", .vBool true] =
      ⟨.vStr "evt", .vBool true, .now, .generated⟩ :=
  ⟨rfl,
    (c8_message_normalization (.vNum 42) (.vBool true) [] "evt" rfl).2.2.1,
    (c8_message_normalization (.vNum 42) (.vBool true) [] "evt" rfl).2.2.2.2⟩

/-- C9: whenever decoding the JWT payload segment fails — wrong number of
segments, a decode (base64/JSON) failure, or a missing (falsy) `exp` claim —
`parseJWTToken` does not propagate the error: it returns the original token
string with the conservative fallback expiry of exactly one hour from now. -/
theorem c9_jwt_parse_fallback
    (decode : String → Option SsoService.JWTPayload) (now : Int) (token : String)
    (a p b : String) (pl : SsoService.JWTPayload) :
    ((SsoService.jwtParts token).length ≠ 3 →
      SsoService.parseJWTToken decode now token =
        ⟨token, now + 60 * 60 * 1000, [], "unknown", none, none⟩)
    ∧ (SsoService.jwtParts token = [a, p, b] → decode p = none →
        SsoService.parseJWTToken decode now token =
          ⟨token, now + 60 * 60 * 1000, [], "unknown", none, none⟩)
    ∧ (SsoService.jwtParts token = [a, p, b] → decode p = some pl →
        (pl.exp = none ∨ pl.exp = some 0) →
        SsoService.parseJWTToken decode now token =
          ⟨token, now + 60 * 60 * 1000, [], "unknown", none, none⟩) := by
  refine ⟨?_, ?_, ?_⟩
  · intro hlen
    have hnone : SsoService.parseJWTAttempt decode token = none := by
      unfold SsoService.parseJWTAttempt
      split
      · rename_i x y z heq
        rw [heq] at hlen
        simp at hlen
      · rfl
    unfold SsoService.parseJWTToken
    rw [hnone]
  · intro hsplit hdec
    have hnone : SsoService.parseJWTAttempt decode token = none := by
      unfold SsoService.parseJWTAttempt
      rw [hsplit]
      simp [hdec]
    unfold SsoService.parseJWTToken
    rw [hnone]
  · intro hsplit hdec hexp
    have hnone : SsoService.parseJWTAttempt decode token = none := by
      unfold SsoService.parseJWTAttempt
      rw [hsplit]
      rcases hexp with h | h <;> simp [hdec, h]
    unfold SsoService.parseJWTToken
    rw [hnone]

/-- Witness for C9: a token with a single segment, and a three-segment token
whose decoded payload lacks the `exp` claim. -/
theorem c9_jwt_parse_fallback_witness :
    (SsoService.jwtParts "abc").length ≠ 3
    ∧ SsoService.parseJWTToken (fun _ => none) 0 "abc" =
      ⟨"abc", 3600000, [], "unknown", none, none⟩
    ∧ SsoService.jwtParts "h.p.s" = ["h", "p", "s"]
    ∧ SsoService.parseJWTToken (fun _ => some ⟨none, none, none, none, none⟩) 0 "h.p.s" =
      ⟨"h.p.s", 3600000, [], "unknown", none, none⟩ :=
  ⟨by decide, (c9_jwt_parse_fallback (fun _ => none) 0 "abc" "h" "p" "s"
      ⟨none, none, none, none, none⟩).1 (by decide),
    by decide,
    (c9_jwt_parse_fallback (fun _ => some ⟨none, none, none, none, none⟩) 0 "h.p.s"
      "h" "p" "s" ⟨none, none, none, none, none⟩).2.2 (by decide) rfl (Or.inl rfl)⟩

/-- C10: a call to the SSO TokenManager `getToken` while SSO is not
authenticated rejects immediately with the not-authenticated error, starts no
acquisition (no refresh future is created) and leaves the manager state —
refresh slot, future counter and started-acquisition log — unchanged. -/
theorem c10_unauthenticated_getToken_rejects
    (sso : SsoService.SSOState) (now : Int) (s : TokenManagerService.MgrState)
    (h : SsoService.isSSOAuthenticated sso = false) :
    TokenManagerService.enterGetToken sso now s =
      (s, .err "User is not authenticated. Please initialize SSO first.") := by
  simp [TokenManagerService.enterGetToken, h]

/-- Witness for C10: an unauthenticated SSO state with a fresh manager. -/
theorem c10_unauthenticated_getToken_rejects_witness :
    SsoService.isSSOAuthenticated ⟨false, none⟩ = false
    ∧ TokenManagerService.enterGetToken ⟨false, none⟩ 0 ⟨none, 0, []⟩ =
      (⟨none, 0, []⟩, .err "User is not authenticated. Please initialize SSO first.") :=
  ⟨rfl, c10_unauthenticated_getToken_rejects ⟨false, none⟩ 0 ⟨none, 0, []⟩ rfl⟩
